import Mathlib

/-!
Verification of the document-conversion gateway (`local_server/convert_server.py`).

The Python handler `ConvertHandler.do_POST` and the helper `_adobe_poll_status`
are shallowly embedded below.  Machine-level collaborators are modelled as
explicit inputs:

* environment variables (`PDF_SERVICES_CLIENT_ID`, `PDF_SERVICES_CLIENT_SECRET`)
  become `Option String` fields of `Config` (a missing variable is `none`);
* the request body stream becomes a `List Nat` of available bytes (a byte after
  the end of the list is an EOF / timeout, both of which make `rfile.read`
  deliver fewer bytes than asked for and break the read loop);
* the stdlib calls `urllib.parse.urlparse` / `parse_qs` are modelled as
  pre-parsed request fields (`path`, `queryParams`);
* the subprocess and the remote Adobe workflow are oracles supplied in `World`.

Python truthiness (`x or y`, `if not x`) is modelled explicitly by the
`py...` helpers.
-/

namespace ConvertServer

/-- ASCII lower-casing of one character, modelling Python `str.lower()` on the
ASCII inputs this server deals with. -/
def asciiLowerChar (c : Char) : Char :=
  if 'A' ≤ c ∧ c ≤ 'Z' then Char.ofNat (c.toNat + 32) else c

/-- Python `str.lower()` (ASCII fragment), as a structural list map. -/
def pyLower (s : String) : String :=
  String.mk (s.data.map asciiLowerChar)

/-- The characters Python `str.strip()` removes. -/
def isPySpace (c : Char) : Bool :=
  c = ' ' || c = '\t' || c = '\n' || c = '\r' || c = '\x0b' || c = '\x0c'

/-- Python `str.strip()`: drop whitespace from both ends. -/
def pyStrip (s : String) : String :=
  String.mk (((s.data.dropWhile isPySpace).reverse.dropWhile isPySpace).reverse)

/-- Python `filename.replace("/", "_")` for the single-character pattern used
by the server. -/
def sanitizeSlashes (s : String) : String :=
  String.mk (s.data.map (fun c => if c = '/' then '_' else c))

/-- Python truthiness of an optional string: `None` and `""` are falsy. -/
def pyStrTruthy (o : Option String) : Bool :=
  match o with
  | none => false
  | some s => s ≠ ""

/-- Python `a or b` on strings: `""` is falsy. -/
def pyOrS (a b : String) : String :=
  if a = "" then b else a

/-- Python `a or b` for optional strings (used for dictionary lookups). -/
def pyOrStrOpt (a b : Option String) : Option String :=
  if pyStrTruthy a then a else b

/-- Python truthiness of an optional list: `None` and `[]` are falsy. -/
def pyListTruthy {α : Type} (o : Option (List α)) : Bool :=
  match o with
  | none => false
  | some l => !l.isEmpty

/-!  ## Engine selection (convert_server.py lines 216-234)  -/

/-- Predicate `can_use_adobe` from `do_POST`: credentials truthy, source extension is
`"pdf"` and the target is one of `docx`, `pptx`, `xlsx`. -/
def can_use_adobe (clientId clientSecret : Option String)
    (sourceExt target : String) : Bool :=
  pyStrTruthy clientId && pyStrTruthy clientSecret && sourceExt == "pdf" &&
    (target == "docx" || target == "pptx" || target == "xlsx")

/-- The requested engine: `(headers.get("X-Conversion-Engine") or "").strip().lower()`. -/
def requestedEngineOf (header : Option String) : String :=
  pyLower (pyStrip (header.getD ""))

/-- The engine-selection block of `do_POST` (lines 219-234).  `Except.ok true`
is the Adobe (remote) engine, `Except.ok false` is LibreOffice (local), and
`Except.error` is the `send_error(400, ...)` branch. -/
def selectEngine (clientId clientSecret : Option String)
    (sourceExt target : String) (engineHeader : Option String) :
    Except String Bool :=
  let requested := requestedEngineOf engineHeader
  if requested = "adobe" then
    if !can_use_adobe clientId clientSecret sourceExt target then
      Except.error "Adobe conversion is not available for this file or credentials."
    else
      Except.ok true
  else if requested = "libreoffice" then
    Except.ok false
  else
    Except.ok (can_use_adobe clientId clientSecret sourceExt target)

/-- Spec-level description of remote eligibility, as a proposition. -/
def RemoteEligible (clientId clientSecret : Option String)
    (sourceExt target : String) : Prop :=
  (∃ a, clientId = some a ∧ a ≠ "") ∧ (∃ b, clientSecret = some b ∧ b ≠ "") ∧
    sourceExt = "pdf" ∧ (target = "docx" ∨ target = "pptx" ∨ target = "xlsx")

theorem can_use_adobe_iff (clientId clientSecret : Option String)
    (sourceExt target : String) :
    can_use_adobe clientId clientSecret sourceExt target = true ↔
      RemoteEligible clientId clientSecret sourceExt target := by
  cases clientId with
  | none =>
    simp [can_use_adobe, RemoteEligible, pyStrTruthy]
  | some a =>
    cases clientSecret with
    | none => simp [can_use_adobe, RemoteEligible, pyStrTruthy]
    | some b =>
      simp [can_use_adobe, RemoteEligible, pyStrTruthy,
        Bool.and_eq_true, Bool.or_eq_true, beq_iff_eq, and_assoc, or_assoc]

theorem selectEngine_absent (clientId clientSecret : Option String)
    (sourceExt target : String) :
    selectEngine clientId clientSecret sourceExt target none =
      Except.ok (can_use_adobe clientId clientSecret sourceExt target) := by
  unfold selectEngine
  rw [show requestedEngineOf none = "" from by decide]
  simp

/-- C1: with `X-Conversion-Engine` absent (automatic selection), the engine
selector chooses the remote engine exactly when the client id and client
secret are present (non-empty), the source extension is `"pdf"` and the
target format is one of `docx`, `pptx`, `xlsx`; in every other case it
chooses the local engine. -/
theorem C1_auto_engine_selection (clientId clientSecret : Option String)
    (sourceExt target : String) :
    (selectEngine clientId clientSecret sourceExt target none = Except.ok true ↔
      RemoteEligible clientId clientSecret sourceExt target) ∧
    (selectEngine clientId clientSecret sourceExt target none = Except.ok false ↔
      ¬ RemoteEligible clientId clientSecret sourceExt target) := by
  have h := can_use_adobe_iff clientId clientSecret sourceExt target
  rw [selectEngine_absent]
  cases hb : can_use_adobe clientId clientSecret sourceExt target <;> simp_all

/-- Witness for C1 at concrete inputs: present credentials, pdf source and
docx target select the remote engine; a txt source selects the local one. -/
theorem C1_auto_engine_selection_witness :
    selectEngine (some "id") (some "secret") "pdf" "docx" none = Except.ok true ∧
    selectEngine (some "id") (some "secret") "txt" "docx" none = Except.ok false := by
  constructor
  · exact (C1_auto_engine_selection (some "id") (some "secret") "pdf" "docx").1.mpr
      ⟨⟨"id", rfl, by decide⟩, ⟨"secret", rfl, by decide⟩, rfl, Or.inl rfl⟩
  · exact (C1_auto_engine_selection (some "id") (some "secret") "txt" "docx").2.mpr
      (by intro hE; exact absurd hE.2.2.1 (by decide))

/-- C10: an `X-Conversion-Engine` header whose trimmed, lower-cased value is
neither `"adobe"` nor `"libreoffice"` behaves exactly like an absent header:
automatic selection applies, and the request is never rejected for an unknown
engine name. -/
theorem C10_unknown_engine_header_is_auto (clientId clientSecret : Option String)
    (sourceExt target hdr : String)
    (h1 : requestedEngineOf (some hdr) ≠ "adobe")
    (h2 : requestedEngineOf (some hdr) ≠ "libreoffice") :
    selectEngine clientId clientSecret sourceExt target (some hdr) =
      selectEngine clientId clientSecret sourceExt target none ∧
    ∃ b, selectEngine clientId clientSecret sourceExt target (some hdr) =
      Except.ok b := by
  have hu : selectEngine clientId clientSecret sourceExt target (some hdr) =
      Except.ok (can_use_adobe clientId clientSecret sourceExt target) := by
    simp only [selectEngine]
    rw [if_neg h1, if_neg h2]
  exact ⟨by rw [hu, selectEngine_absent], ⟨_, hu⟩⟩

/-- Witness for C10: the unrecognized header value `" BoGus "` selects like an
absent header and is not rejected. -/
theorem C10_unknown_engine_header_is_auto_witness :
    selectEngine (some "id") (some "secret") "pdf" "docx" (some " BoGus ") =
      selectEngine (some "id") (some "secret") "pdf" "docx" none ∧
    ∃ b, selectEngine (some "id") (some "secret") "pdf" "docx" (some " BoGus ") =
      Except.ok b :=
  C10_unknown_engine_header_is_auto (some "id") (some "secret") "pdf" "docx"
    " BoGus " (by decide) (by decide)

/-!  ## LibreOffice command construction (convert_server.py lines 289-315)  -/

/-- The `filter_target` mapping from `do_POST`: the three fixed LibreOffice
output filter strings; any other target passes through unmodified. -/
def filterTargetOf (target : String) : String :=
  if target = "docx" then "docx:MS Word 2007 XML"
  else if target = "xlsx" then "xlsx:Calc MS Excel 2007 XML"
  else if target = "pptx" then "pptx:Impress MS PowerPoint 2007 XML"
  else target

/-- Python `list.index(x)`: position of the first occurrence (the server only
calls it when the element is present). -/
def indexOfS (x : String) : List String → Nat
  | [] => 0
  | y :: ys => if y = x then 0 else indexOfS x ys + 1

/-- Python `list.insert(i, a)` for an in-range index. -/
def insertAt {α : Type} : Nat → α → List α → List α
  | _, a, [] => [a]
  | 0, a, l => a :: l
  | n + 1, a, x :: xs => x :: insertAt n a xs

/-- The LibreOffice argument list built by `do_POST` (lines 297-315),
including the pdf input-filter insertion in front of `"--convert-to"`. -/
def buildCmd (soffice tmpdir inputPath sourceExt target : String) : List String :=
  let cmd := [soffice, "--headless", "--nologo", "--nolockcheck", "--norestore",
    "--convert-to", filterTargetOf target, "--outdir", tmpdir, inputPath]
  if sourceExt = "pdf" then
    if target = "ppt" ∨ target = "pptx" then
      insertAt (indexOfS "--convert-to" cmd) "--infilter=impress_pdf_import" cmd
    else if target = "docx" then
      insertAt (indexOfS "--convert-to" cmd) "--infilter=writer_pdf_import" cmd
    else if target = "xlsx" then
      insertAt (indexOfS "--convert-to" cmd) "--infilter=calc_pdf_import" cmd
    else cmd
  else cmd

/-- The pdf input filter the server picks per target (`none` when no input
filter is inserted). -/
def pdfInfilterOf (target : String) : Option String :=
  if target = "ppt" ∨ target = "pptx" then some "--infilter=impress_pdf_import"
  else if target = "docx" then some "--infilter=writer_pdf_import"
  else if target = "xlsx" then some "--infilter=calc_pdf_import"
  else none

theorem indexOfS_cmd (soffice t tmp inp : String) (hs : soffice ≠ "--convert-to") :
    indexOfS "--convert-to" [soffice, "--headless", "--nologo", "--nolockcheck",
      "--norestore", "--convert-to", t, "--outdir", tmp, inp] = 5 := by
  unfold indexOfS
  rw [if_neg hs]
  rfl

/-- C4: the LibreOffice argument list is a pure function of
(sourceExtension, targetFormat): the three fixed output filter strings,
pass-through for unlisted targets, and for pdf sources an input-filter
argument (per the target table) inserted directly in front of the
`--convert-to` output-filter argument. -/
theorem C4_local_cmd_mapping (soffice tmpdir inputPath sourceExt target : String)
    (hs : soffice ≠ "--convert-to") :
    (filterTargetOf "docx" = "docx:MS Word 2007 XML" ∧
     filterTargetOf "xlsx" = "xlsx:Calc MS Excel 2007 XML" ∧
     filterTargetOf "pptx" = "pptx:Impress MS PowerPoint 2007 XML") ∧
    (target ≠ "docx" → target ≠ "xlsx" → target ≠ "pptx" →
      filterTargetOf target = target) ∧
    (sourceExt ≠ "pdf" →
      buildCmd soffice tmpdir inputPath sourceExt target =
        [soffice, "--headless", "--nologo", "--nolockcheck", "--norestore",
         "--convert-to", filterTargetOf target, "--outdir", tmpdir, inputPath]) ∧
    (sourceExt = "pdf" → pdfInfilterOf target = none →
      buildCmd soffice tmpdir inputPath sourceExt target =
        [soffice, "--headless", "--nologo", "--nolockcheck", "--norestore",
         "--convert-to", filterTargetOf target, "--outdir", tmpdir, inputPath]) ∧
    (sourceExt = "pdf" → ∀ fil, pdfInfilterOf target = some fil →
      buildCmd soffice tmpdir inputPath sourceExt target =
        [soffice, "--headless", "--nologo", "--nolockcheck", "--norestore",
         fil, "--convert-to", filterTargetOf target, "--outdir", tmpdir, inputPath]) := by
  refine ⟨⟨by decide, by decide, by decide⟩, ?_, ?_, ?_, ?_⟩
  · intro h1 h2 h3
    unfold filterTargetOf
    rw [if_neg h1, if_neg h2, if_neg h3]
  · intro hne
    unfold buildCmd
    rw [if_neg hne]
  · intro hpdf hnone
    unfold buildCmd
    rw [if_pos hpdf]
    unfold pdfInfilterOf at hnone
    by_cases h1 : target = "ppt" ∨ target = "pptx"
    · rw [if_pos h1] at hnone; exact absurd hnone (by simp)
    · rw [if_neg h1] at hnone
      rw [if_neg h1]
      by_cases h2 : target = "docx"
      · rw [if_pos h2] at hnone; exact absurd hnone (by simp)
      · rw [if_neg h2] at hnone
        rw [if_neg h2]
        by_cases h3 : target = "xlsx"
        · rw [if_pos h3] at hnone; exact absurd hnone (by simp)
        · rw [if_neg h3]
  · intro hpdf fil hfil
    unfold buildCmd
    rw [if_pos hpdf]
    unfold pdfInfilterOf at hfil
    by_cases h1 : target = "ppt" ∨ target = "pptx"
    · rw [if_pos h1] at hfil
      rw [if_pos h1, indexOfS_cmd soffice (filterTargetOf target) tmpdir inputPath hs]
      cases hfil
      rfl
    · rw [if_neg h1] at hfil
      rw [if_neg h1]
      by_cases h2 : target = "docx"
      · rw [if_pos h2] at hfil
        rw [if_pos h2, indexOfS_cmd soffice (filterTargetOf target) tmpdir inputPath hs]
        cases hfil
        rfl
      · rw [if_neg h2] at hfil
        rw [if_neg h2]
        by_cases h3 : target = "xlsx"
        · rw [if_pos h3] at hfil
          rw [if_pos h3, indexOfS_cmd soffice (filterTargetOf target) tmpdir inputPath hs]
          cases hfil
          rfl
        · rw [if_neg h3] at hfil
          exact absurd hfil (by simp)

/-- Witness for C4: for a pdf source and docx target the writer pdf import
filter is inserted directly in front of `--convert-to`. -/
theorem C4_local_cmd_mapping_witness :
    buildCmd "/usr/bin/soffice" "/tmpdir" "/tmpdir/input.pdf" "pdf" "docx" =
      ["/usr/bin/soffice", "--headless", "--nologo", "--nolockcheck",
       "--norestore", "--infilter=writer_pdf_import", "--convert-to",
       "docx:MS Word 2007 XML", "--outdir", "/tmpdir", "/tmpdir/input.pdf"] := by
  have h := (C4_local_cmd_mapping "/usr/bin/soffice" "/tmpdir" "/tmpdir/input.pdf"
    "pdf" "docx" (by decide)).2.2.2.2 rfl "--infilter=writer_pdf_import" (by decide)
  rw [h]
  decide

/-!  ## Body ingestion (convert_server.py lines 252-269)

The read loop `while remaining > 0: chunk = self.rfile.read(min(1024*1024,
remaining)); if not chunk: break; ...`.  The stream is the list of bytes the
connection will deliver; running out of list elements models both EOF and the
socket timeout (the `except socket.timeout` branch), either of which ends the
loop with fewer bytes than requested.  -/

def chunkLimit : Nat := 1048576

/-- One structural-recursion presentation of the read loop: every iteration
consumes at least one of `remaining`, so `remaining` itself bounds the
number of iterations and serves as fuel. -/
def ingestChunksF : Nat → List Nat → Nat → List (List Nat)
  | 0, _, _ => []
  | fuel + 1, stream, remaining =>
    if remaining = 0 then []
    else
      let chunk := stream.take (min chunkLimit remaining)
      if chunk.isEmpty then []
      else
        chunk :: ingestChunksF fuel (stream.drop (min chunkLimit remaining))
          (remaining - chunk.length)

/-- The chunks written to the temporary input file by the read loop. -/
def ingestChunks (stream : List Nat) (remaining : Nat) : List (List Nat) :=
  ingestChunksF remaining stream remaining

structure IngestResult where
  chunks : List (List Nat)
  totalRead : Nat

/-- The whole read loop: the chunk list and the accumulated `total_read`. -/
def ingest (declaredLength : Nat) (stream : List Nat) : IngestResult :=
  let cs := ingestChunks stream declaredLength
  ⟨cs, (cs.map List.length).sum⟩

theorem take_split {α : Type} (s : List α) (n r : Nat) (h : n ≤ r) :
    s.take r = s.take n ++ (s.drop n).take (r - n) := by
  induction n generalizing s r with
  | zero => simp
  | succ n ih =>
    match r, h with
    | r + 1, h =>
      match s with
      | [] => simp
      | a :: s' =>
        simp only [List.take_succ_cons, List.drop_succ_cons, List.cons_append,
          Nat.succ_sub_succ]
        rw [ih s' r (Nat.le_of_succ_le_succ h)]

theorem ingestChunksF_flatten :
    ∀ (fuel : Nat) (stream : List Nat) (remaining : Nat), remaining ≤ fuel →
    (ingestChunksF fuel stream remaining).flatten = stream.take remaining := by
  intro fuel
  induction fuel with
  | zero =>
    intro s r h
    have h0 : r = 0 := by omega
    subst h0
    simp [ingestChunksF]
  | succ fuel ih =>
    intro s r h
    by_cases h0 : r = 0
    · subst h0; simp [ingestChunksF]
    · simp only [ingestChunksF, if_neg h0]
      set n := min chunkLimit r with hn
      have hnpos : 0 < n := by
        have : 0 < chunkLimit := by decide
        exact lt_min this (Nat.pos_of_ne_zero h0)
      have hnr : n ≤ r := Nat.min_le_right _ _
      by_cases hc : (s.take n).isEmpty
      · have hsnil : s = [] := by
          rcases List.take_eq_nil_iff.mp (List.isEmpty_iff.mp hc) with h1 | h1
          · omega
          · exact h1
        simp [hc, hsnil]
      · simp only [if_neg hc, List.flatten_cons]
        have hlen : (s.take n).length = min n s.length := List.length_take n s
        have hne : s.take n ≠ [] := fun w => hc (by simp [w])
        have hpos : 0 < (s.take n).length := List.length_pos.mpr hne
        by_cases hsl : n ≤ s.length
        · have hchunk : (s.take n).length = n := by omega
          rw [ih (s.drop n) (r - (s.take n).length) (by omega)]
          rw [hchunk]
          exact (take_split s n r hnr).symm
        · have htk : s.take n = s := List.take_of_length_le (by omega)
          have hdr : s.drop n = [] := List.drop_eq_nil_iff.mpr (by omega)
          rw [ih (s.drop n) (r - (s.take n).length) (by omega)]
          rw [htk, hdr]
          simp [List.take_of_length_le (show s.length ≤ r by omega)]

theorem ingestChunks_flatten (stream : List Nat) (remaining : Nat) :
    (ingestChunks stream remaining).flatten = stream.take remaining :=
  ingestChunksF_flatten remaining stream remaining (Nat.le_refl remaining)

theorem ingest_totalRead (declaredLength : Nat) (stream : List Nat) :
    (ingest declaredLength stream).totalRead = min declaredLength stream.length := by
  unfold ingest
  simp only
  rw [← List.length_flatten, ingestChunks_flatten, List.length_take]

theorem ingest_flatten (declaredLength : Nat) (stream : List Nat) :
    (ingest declaredLength stream).chunks.flatten = stream.take declaredLength := by
  unfold ingest
  simp only
  exact ingestChunks_flatten stream declaredLength

theorem ingestChunksF_le_chunkLimit :
    ∀ (fuel : Nat) (stream : List Nat) (remaining : Nat),
    ∀ c ∈ ingestChunksF fuel stream remaining, c.length ≤ chunkLimit := by
  intro fuel
  induction fuel with
  | zero => intro s r c hc; simp [ingestChunksF] at hc
  | succ fuel ih =>
    intro s r c hc
    by_cases h0 : r = 0
    · simp [ingestChunksF, h0] at hc
    · simp only [ingestChunksF, if_neg h0] at hc
      by_cases hce : (s.take (min chunkLimit r)).isEmpty
      · simp [hce] at hc
      · simp only [if_neg hce, List.mem_cons] at hc
        rcases hc with hc | hc
        · subst hc
          calc (s.take (min chunkLimit r)).length
              ≤ min chunkLimit r := List.length_take_le _ _
            _ ≤ chunkLimit := Nat.min_le_left _ _
        · exact ih _ _ c hc

/-- Every read chunk holds at most 1 MiB. -/
theorem ingestChunks_le_chunkLimit (stream : List Nat) (remaining : Nat) :
    ∀ c ∈ ingestChunks stream remaining, c.length ≤ chunkLimit :=
  ingestChunksF_le_chunkLimit remaining stream remaining

/-!  ## Subprocess result handling (convert_server.py lines 318-331)  -/

structure SubprocResult where
  returncode : Int
  stdout : String
  stderr : String

/-- Python `s[:n]`: the first `n` characters. -/
def strTakeFirst (n : Nat) (s : String) : String :=
  String.mk (s.data.take n)

/-- Modelled from the spec: the last `n` characters of a string — the
truncation §4.3 of the specification describes for captured standard error
(the code itself uses `[:1000]`). -/
def strTakeLast (n : Nat) (s : String) : String :=
  String.mk (s.data.drop (s.data.length - n))

/-- The code after `subprocess.run` in the local branch of `do_POST`:
non-zero exit code fails with the truncated stderr; zero exit code with the
expected output file (`input.<target>` in the temporary directory) missing
fails with `"Converted file not found"`; otherwise the output bytes are
returned.  `outputExists` and `outputData` are the state of the expected
output file after the subprocess ran. -/
def localStageResult (res : SubprocResult) (outputExists : Bool)
    (outputData : List Nat) : Except (Nat × String) (List Nat) :=
  if res.returncode ≠ 0 then
    Except.error (500, "LibreOffice conversion failed: " ++ strTakeFirst 1000 res.stderr)
  else if !outputExists then
    Except.error (500, "Converted file not found")
  else
    Except.ok outputData

/-!  ## Adobe status polling (`_adobe_poll_status`, convert_server.py lines 128-171)

Timing model: each loop iteration costs one second (the `time.sleep(1.0)`
executed both after a swallowed transport error and after a non-terminal
status), and the per-request HTTP time is negligible; the loop condition
`time.time() < deadline` with `deadline = now + 180` therefore allows the
poll indices `0, 1, ..., 179`, index `179` being the final reachable poll.
`f i` is the response of the `i`-th poll: either an `urllib` `HTTPError`
(`transportError`) or the decoded JSON body (`data`).  -/

structure AdobeAsset where
  downloadUri : Option String
  downloadUriSnake : Option String
  extraKeys : Bool
deriving DecidableEq

/-- The empty dictionary `{}`. -/
def AdobeAsset.empty : AdobeAsset := ⟨none, none, false⟩

/-- Python dictionary truthiness: a dictionary with at least one key. -/
def AdobeAsset.truthy (a : AdobeAsset) : Bool :=
  a.downloadUri.isSome || a.downloadUriSnake.isSome || a.extraKeys

structure AdobeError where
  message : Option String
deriving DecidableEq

/-- The decoded JSON body of one status poll.  `downloadUriSnake` models the
`"download_uri"` key, `errorInfo` the `"error"` object. -/
structure StatusData where
  status : Option String
  asset : Option AdobeAsset
  assetList : Option (List (Option AdobeAsset))
  errorInfo : Option AdobeError
deriving DecidableEq

/-- Models `(data.get("status") or "").lower()`. -/
def statusOf (d : StatusData) : String :=
  pyLower (d.status.getD "")

/-- The asset object the success branch reads: `data.get("asset") or {}`,
falling back to the first element of `assetList` when the direct asset is
falsy and the list is truthy. -/
def effectiveAsset (d : StatusData) : AdobeAsset :=
  let a := d.asset.getD AdobeAsset.empty
  if !a.truthy && pyListTruthy d.assetList then
    match d.assetList with
    | some (x :: _) => x.getD AdobeAsset.empty
    | _ => a
  else a

/-- Models `asset.get("downloadUri") or asset.get("download_uri")`, with the final
truthiness check `if not download_uri`. -/
def extractDownloadUri (d : StatusData) : Option String :=
  let r := pyOrStrOpt (effectiveAsset d).downloadUri (effectiveAsset d).downloadUriSnake
  if pyStrTruthy r then r else none

/-- Models `(data.get("error") or {}).get("message") or "Adobe export job failed."`. -/
def errMsgOf (d : StatusData) : String :=
  let e := d.errorInfo.getD ⟨none⟩
  pyOrS (e.message.getD "") "Adobe export job failed."

inductive StepOut where
  | success (uri : String)
  | missingUri
  | failed (msg : String)
  | cont
deriving DecidableEq

/-- Classification of one poll body: `{done, succeeded, success}` terminate
with the extracted download URI (or the missing-URI failure), `{failed,
error}` terminate with the remote error message, anything else continues. -/
def stepResult (d : StatusData) : StepOut :=
  if statusOf d = "done" ∨ statusOf d = "succeeded" ∨ statusOf d = "success" then
    match extractDownloadUri d with
    | some u => StepOut.success u
    | none => StepOut.missingUri
  else if statusOf d = "failed" ∨ statusOf d = "error" then
    StepOut.failed (errMsgOf d)
  else
    StepOut.cont

inductive PollResp where
  | transportError (e : String)
  | data (d : StatusData)
deriving DecidableEq

inductive PollOutcome where
  | success (uri : String)
  | missingUri
  | jobFailed (msg : String)
  | transportFailure (e : String)
  | timedOut
deriving DecidableEq

/-- The polling loop.  The first `Nat` is the remaining fuel (seconds until
the deadline), the second the current poll index, the `Option String` the
`last_error` variable (never reset once set).  After the loop, a recorded
`last_error` is re-raised as `"Adobe status polling failed: ..."`, otherwise
the loop raises `"Adobe status polling timed out."`. -/
def pollLoop (f : Nat → PollResp) : Nat → Nat → Option String → PollOutcome
  | 0, _, lastError =>
    match lastError with
    | some e => PollOutcome.transportFailure e
    | none => PollOutcome.timedOut
  | r + 1, i, lastError =>
    match f i with
    | PollResp.transportError e => pollLoop f r (i + 1) (some e)
    | PollResp.data d =>
      match stepResult d with
      | StepOut.success u => PollOutcome.success u
      | StepOut.missingUri => PollOutcome.missingUri
      | StepOut.failed m => PollOutcome.jobFailed m
      | StepOut.cont => pollLoop f r (i + 1) lastError

def pollDeadlineSeconds : Nat := 180

/-- Function `_adobe_poll_status` with its default 180-second deadline supplied by the
caller. -/
def adobePollStatus (f : Nat → PollResp) (timeoutSeconds : Nat) : PollOutcome :=
  pollLoop f timeoutSeconds 0 none

theorem stepResult_of_pending (d : StatusData) (h : statusOf d = "pending") :
    stepResult d = StepOut.cont := by
  unfold stepResult
  rw [h, if_neg (by decide), if_neg (by decide)]

theorem stepResult_of_succeeded (d : StatusData) (u : String)
    (h : statusOf d = "succeeded") (he : extractDownloadUri d = some u) :
    stepResult d = StepOut.success u := by
  unfold stepResult
  rw [h, if_pos (by decide), he]

theorem stepResult_of_succeeded_missing (d : StatusData)
    (h : statusOf d = "succeeded") (he : extractDownloadUri d = none) :
    stepResult d = StepOut.missingUri := by
  unfold stepResult
  rw [h, if_pos (by decide), he]

theorem stepResult_of_failed (d : StatusData)
    (h : statusOf d = "failed" ∨ statusOf d = "error") :
    stepResult d = StepOut.failed (errMsgOf d) := by
  unfold stepResult
  rcases h with h | h <;>
    rw [h, if_neg (by decide), if_pos (by decide)]

theorem pollLoop_cont_step (f : Nat → PollResp) (r i : Nat) (le : Option String)
    (d : StatusData) (hf : f i = PollResp.data d)
    (hd : stepResult d = StepOut.cont) :
    pollLoop f (r + 1) i le = pollLoop f r (i + 1) le := by
  simp [pollLoop, hf, hd]

theorem pollLoop_transport_step (f : Nat → PollResp) (r i : Nat)
    (le : Option String) (e : String) (hf : f i = PollResp.transportError e) :
    pollLoop f (r + 1) i le = pollLoop f r (i + 1) (some e) := by
  simp [pollLoop, hf]

theorem pollLoop_terminal_step (f : Nat → PollResp) (r i : Nat)
    (le : Option String) (d : StatusData) (hf : f i = PollResp.data d) :
    (∀ u, stepResult d = StepOut.success u →
      pollLoop f (r + 1) i le = PollOutcome.success u) ∧
    (stepResult d = StepOut.missingUri →
      pollLoop f (r + 1) i le = PollOutcome.missingUri) ∧
    (∀ m, stepResult d = StepOut.failed m →
      pollLoop f (r + 1) i le = PollOutcome.jobFailed m) := by
  refine ⟨fun u hd => ?_, fun hd => ?_, fun m hd => ?_⟩ <;> simp [pollLoop, hf, hd]

theorem pollLoop_all_cont (f : Nat → PollResp) (r : Nat) :
    ∀ (i : Nat) (le : Option String),
    (∀ j, i ≤ j → ∃ d, f j = PollResp.data d ∧ stepResult d = StepOut.cont) →
    pollLoop f r i le =
      (match le with
       | some e => PollOutcome.transportFailure e
       | none => PollOutcome.timedOut) := by
  induction r with
  | zero => intro i le _; rfl
  | succ r ih =>
    intro i le h
    obtain ⟨d, hf, hd⟩ := h i (Nat.le_refl i)
    rw [pollLoop_cont_step f r i le d hf hd]
    exact ih (i + 1) le (fun j hj => h j (by omega))

theorem pollLoop_one_transport (f : Nat → PollResp) (k : Nat) (e : String)
    (hk : f k = PollResp.transportError e)
    (hcont : ∀ j, j ≠ k → ∃ d, f j = PollResp.data d ∧ stepResult d = StepOut.cont) :
    ∀ (r i : Nat) (le : Option String), i ≤ k → k < i + r →
    pollLoop f r i le = PollOutcome.transportFailure e := by
  intro r
  induction r with
  | zero => intro i le h1 h2; omega
  | succ r ih =>
    intro i le h1 h2
    by_cases hik : i = k
    · subst hik
      rw [pollLoop_transport_step f r i le e hk]
      exact pollLoop_all_cont f r (i + 1) (some e)
        (fun j hj => hcont j (by omega))
    · obtain ⟨d, hf, hd⟩ := hcont i hik
      rw [pollLoop_cont_step f r i le d hf hd]
      exact ih (i + 1) le (by omega) (by omega)

/-- C6: polling classifies the (case-insensitively lower-cased) status field:
a [pending, pending, succeeded] sequence with a download URI terminates at
the third poll yielding that URI; a terminal-success response lacking a
download URI fails with the missing-URI error; `failed`/`error` terminates
with the remote-provided message; only-pending sequences time out at the
180-second deadline. -/
theorem C6_poll_status_classification :
    (∀ (f : Nat → PollResp) (d0 d1 d2 : StatusData) (u : String),
      f 0 = PollResp.data d0 → statusOf d0 = "pending" →
      f 1 = PollResp.data d1 → statusOf d1 = "pending" →
      f 2 = PollResp.data d2 → statusOf d2 = "succeeded" →
      extractDownloadUri d2 = some u →
      adobePollStatus f pollDeadlineSeconds = PollOutcome.success u) ∧
    (∀ (f : Nat → PollResp) (d : StatusData),
      f 0 = PollResp.data d → statusOf d = "succeeded" →
      extractDownloadUri d = none →
      adobePollStatus f pollDeadlineSeconds = PollOutcome.missingUri) ∧
    (∀ (f : Nat → PollResp) (d : StatusData),
      f 0 = PollResp.data d → (statusOf d = "failed" ∨ statusOf d = "error") →
      adobePollStatus f pollDeadlineSeconds = PollOutcome.jobFailed (errMsgOf d)) ∧
    (∀ (f : Nat → PollResp),
      (∀ i, ∃ d, f i = PollResp.data d ∧ statusOf d = "pending") →
      adobePollStatus f pollDeadlineSeconds = PollOutcome.timedOut) := by
  refine ⟨?_, ?_, ?_, ?_⟩
  · intro f d0 d1 d2 u h0 h0s h1 h1s h2 h2s he
    show pollLoop f 180 0 none = PollOutcome.success u
    rw [show (180 : Nat) = 179 + 1 from rfl,
      pollLoop_cont_step f 179 0 none d0 h0 (stepResult_of_pending d0 h0s),
      show (179 : Nat) = 178 + 1 from rfl,
      pollLoop_cont_step f 178 1 none d1 h1 (stepResult_of_pending d1 h1s),
      show (178 : Nat) = 177 + 1 from rfl]
    exact (pollLoop_terminal_step f 177 2 none d2 h2).1 u
      (stepResult_of_succeeded d2 u h2s he)
  · intro f d h0 hs he
    show pollLoop f 180 0 none = PollOutcome.missingUri
    rw [show (180 : Nat) = 179 + 1 from rfl]
    exact (pollLoop_terminal_step f 179 0 none d h0).2.1
      (stepResult_of_succeeded_missing d hs he)
  · intro f d h0 hs
    show pollLoop f 180 0 none = PollOutcome.jobFailed (errMsgOf d)
    rw [show (180 : Nat) = 179 + 1 from rfl]
    exact (pollLoop_terminal_step f 179 0 none d h0).2.2 (errMsgOf d)
      (stepResult_of_failed d hs)
  · intro f h
    have := pollLoop_all_cont f 180 0 none
      (fun j _ => by
        obtain ⟨d, hf, hs⟩ := h j
        exact ⟨d, hf, stepResult_of_pending d hs⟩)
    exact this

/-- A pending status body and a succeeded one, used as concrete poll data. -/
def pendingData : StatusData := ⟨some "pending", none, none, none⟩

def succeededData : StatusData :=
  ⟨some "SUCCEEDED", some ⟨some "https://dl.example/result", none, false⟩, none, none⟩

def ex6 : Nat → PollResp := fun i =>
  if i = 0 then PollResp.data pendingData
  else if i = 1 then PollResp.data pendingData
  else PollResp.data succeededData

/-- Witness for C6: a concrete [pending, pending, SUCCEEDED] sequence yields
the download URI, and an all-pending sequence times out. -/
theorem C6_poll_status_classification_witness :
    adobePollStatus ex6 pollDeadlineSeconds =
      PollOutcome.success "https://dl.example/result" ∧
    adobePollStatus (fun _ => PollResp.data pendingData) pollDeadlineSeconds =
      PollOutcome.timedOut := by
  constructor
  · exact C6_poll_status_classification.1 ex6 pendingData pendingData
      succeededData "https://dl.example/result" rfl (by decide) rfl (by decide)
      rfl (by decide) (by decide)
  · exact C6_poll_status_classification.2.2.2 (fun _ => PollResp.data pendingData)
      (fun _ => ⟨pendingData, rfl, by decide⟩)

/-- C7 (amended): transient per-poll transport errors are swallowed and the
poll is retried on the fixed 1-second schedule; exceeding the 180-second
deadline with no terminal state and no transport error at all yields the
polling-timeout error; but a transport error on ANY poll (not only the final
reachable one) makes the deadline failure surface as the polling-transport
error, because `last_error` is never reset. -/
theorem C7_poll_transport_errors (f : Nat → PollResp) :
    (∀ (e : String) (d : StatusData) (u : String),
      f 0 = PollResp.transportError e → f 1 = PollResp.data d →
      stepResult d = StepOut.success u →
      adobePollStatus f pollDeadlineSeconds = PollOutcome.success u) ∧
    ((∀ i, ∃ d, f i = PollResp.data d ∧ stepResult d = StepOut.cont) →
      adobePollStatus f pollDeadlineSeconds = PollOutcome.timedOut) ∧
    (∀ (k : Nat) (e : String),
      k < pollDeadlineSeconds → f k = PollResp.transportError e →
      (∀ j, j ≠ k → ∃ d, f j = PollResp.data d ∧ stepResult d = StepOut.cont) →
      adobePollStatus f pollDeadlineSeconds = PollOutcome.transportFailure e) := by
  refine ⟨?_, ?_, ?_⟩
  · intro e d u h0 h1 hd
    show pollLoop f 180 0 none = PollOutcome.success u
    rw [show (180 : Nat) = 179 + 1 from rfl,
      pollLoop_transport_step f 179 0 none e h0,
      show (179 : Nat) = 178 + 1 from rfl]
    exact (pollLoop_terminal_step f 178 1 (some e) d h1).1 u hd
  · intro h
    exact pollLoop_all_cont f 180 0 none (fun j _ => h j)
  · intro k e hk hke hcont
    exact pollLoop_one_transport f k e hke hcont 180 0 none (Nat.zero_le k) hk

def ex7 : Nat → PollResp := fun i =>
  if i = 0 then PollResp.transportError "connection reset"
  else PollResp.data pendingData

/-- Counterexample to C7 as stated: with a transport error on the FIRST poll
and every later poll pending, the final reachable poll (index 179) is not a
transport error, yet the deadline failure is the polling-transport error and
not the polling-timeout error — `last_error` persists across polls. -/
theorem C7_poll_transport_errors_counterexample :
    ex7 (pollDeadlineSeconds - 1) = PollResp.data pendingData ∧
    adobePollStatus ex7 pollDeadlineSeconds =
      PollOutcome.transportFailure "connection reset" ∧
    adobePollStatus ex7 pollDeadlineSeconds ≠ PollOutcome.timedOut := by
  have hmain : adobePollStatus ex7 pollDeadlineSeconds =
      PollOutcome.transportFailure "connection reset" := by
    apply pollLoop_one_transport ex7 0 "connection reset" rfl
      (fun j hj => ⟨pendingData, ?_, by decide⟩) 180 0 none (Nat.le_refl 0)
      (by omega)
    simp only [ex7, if_neg hj]
  exact ⟨rfl, hmain, by rw [hmain]; decide⟩

/-- Witness for C7: a transport error on the first poll followed by a
successful second poll still succeeds, and an error-free all-pending run
times out. -/
theorem C7_poll_transport_errors_witness :
    adobePollStatus
      (fun i => if i = 0 then PollResp.transportError "reset"
        else PollResp.data succeededData) pollDeadlineSeconds =
      PollOutcome.success "https://dl.example/result" ∧
    adobePollStatus (fun _ => PollResp.data pendingData) pollDeadlineSeconds =
      PollOutcome.timedOut := by
  constructor
  · exact (C7_poll_transport_errors _).1 "reset" succeededData
      "https://dl.example/result" rfl rfl (by decide)
  · exact (C7_poll_transport_errors _).2.1 (fun _ => ⟨pendingData, rfl, by decide⟩)

/-!  ## The request coordinator (`ConvertHandler.do_POST`, lines 182-344)

`do_POST` is embedded as a function from the process configuration, an
oracle for the machine (`World`) and the parsed request to the ordered list
of observable events it performs.  `urllib.parse.urlparse` and `parse_qs`
are stdlib collaborators, so the request carries the already-split `path`
and the parsed query dictionary.  The remote (Adobe) workflow performs
network I/O; its overall result is the `remote` oracle, and the subprocess
is the `run` oracle together with the resulting state of the expected output
file `<tmpdir>/input.<target>` (`outputExists`, `outputData`).  -/

structure Config where
  clientId : Option String
  clientSecret : Option String

structure Req where
  path : String
  queryParams : List (String × List String)
  contentLengthHeader : Option String
  xFilename : Option String
  xFileExt : Option String
  xConversionEngine : Option String
  body : List Nat

structure World where
  sofficePath : String
  sofficeExists : Bool
  tmpdir : String
  run : List String → SubprocResult
  outputExists : Bool
  outputData : List Nat
  remote : Except String (List Nat)

inductive Event where
  | tmpDirCreated
  | inputWritten (bytes : List Nat)
  | subprocessRun (cmd : List String)
  | remoteRun
  | tmpDirDeleted
  | responseSent (status : Nat) (message : String)
  | bodySent (bytes : List Nat)
deriving DecidableEq

/-- Models `(params.get("target") or [""])[0].strip().lower()`. -/
def targetParam (q : List (String × List String)) : String :=
  pyLower (pyStrip
    (match List.lookup "target" q with
     | some (v :: _) => v
     | some [] => ""
     | none => ""))

def digitsToNat (cs : List Char) : Nat :=
  cs.foldl (fun acc c => acc * 10 + (c.toNat - '0'.toNat)) 0

/-- Python `int(s)` on the decimal strings a `Content-Length` header holds:
optional surrounding whitespace, optional sign, decimal digits (the
underscore digit-grouping Python also accepts is not modelled). -/
def pyInt (s : String) : Option Int :=
  let t := (pyStrip s).data
  let sd : Bool × List Char :=
    match t with
    | '+' :: r => (false, r)
    | '-' :: r => (true, r)
    | r => (false, r)
  if sd.2.isEmpty || !sd.2.all Char.isDigit then none
  else if sd.1 then some (-(digitsToNat sd.2 : Int))
  else some ((digitsToNat sd.2 : Int))

/-- Index of the extension dot of `os.path.splitext` for a slash-free name:
the last `'.'` that has some non-dot character before it. -/
def extDotIdx : List Char → Nat → Bool → Option Nat → Option Nat
  | [], _, _, best => best
  | c :: rest, i, seenNonDot, best =>
    if c = '.' then
      extDotIdx rest (i + 1) seenNonDot (if seenNonDot then some i else best)
    else
      extDotIdx rest (i + 1) true best

/-- Models `os.path.splitext(f)[0]` for a slash-free filename. -/
def pySplitextRoot (f : String) : String :=
  match extDotIdx f.data 0 false none with
  | some i => String.mk (f.data.take i)
  | none => f

/-- Models `os.path.splitext(f)[1].lstrip(".")` for a slash-free filename (the
extension is taken from the last dot, so stripping its leading dot leaves
the characters after it). -/
def pySplitextExtStripped (f : String) : String :=
  match extDotIdx f.data 0 false none with
  | some i => String.mk (f.data.drop (i + 1))
  | none => ""

/-- Models `filename = headers.get("X-Filename", "document").replace("/", "_")`. -/
def sanitizedFilename (req : Req) : String :=
  sanitizeSlashes (req.xFilename.getD "document")

/-- Models `header_ext = (headers.get("X-File-Ext") or "").strip().lower()`. -/
def headerExtOf (req : Req) : String :=
  pyLower (pyStrip (req.xFileExt.getD ""))

/-- Models `source_ext = header_ext or splitext(filename)[1].lstrip(".") or "bin"`. -/
def sourceExtOf (req : Req) : String :=
  pyOrS (headerExtOf req) (pyOrS (pySplitextExtStripped (sanitizedFilename req)) "bin")

/-- Models `output_name = (splitext(filename)[0] or "document") + "." + target`. -/
def outputNameOf (req : Req) (target : String) : String :=
  pyOrS (pySplitextRoot (sanitizedFilename req)) "document" ++ "." ++ target

def incompleteMsg (totalRead : Nat) (declaredLength : Int) : String :=
  "Incomplete request body: " ++ toString totalRead ++ "/" ++
    toString declaredLength ++ " bytes"

/-- The conversion part inside the temporary directory, after a complete body
was ingested: either the Adobe workflow (whole-block `try`/`except` mapped to
a 500) or the LibreOffice subprocess. -/
def convertStage (w : World) (useAdobe : Bool) (sourceExt target : String) :
    List Event × Option (List Nat) :=
  if useAdobe then
    match w.remote with
    | Except.error e =>
      ([Event.remoteRun,
        Event.responseSent 500 ("Adobe PDF Services conversion failed: " ++ e)], none)
    | Except.ok d => ([Event.remoteRun], some d)
  else
    let inputPath := w.tmpdir ++ "/input." ++ sourceExt
    let cmd := buildCmd w.sofficePath w.tmpdir inputPath sourceExt target
    match localStageResult (w.run cmd) w.outputExists w.outputData with
    | Except.error p =>
      ([Event.subprocessRun cmd, Event.responseSent p.1 p.2], none)
    | Except.ok d => ([Event.subprocessRun cmd], some d)

/-- The body of the `with tempfile.TemporaryDirectory()` block: ingest the
declared-length body into the input file, fail with the incomplete-body 400
if fewer bytes arrived, otherwise convert. -/
def convertInTmp (w : World) (useAdobe : Bool) (sourceExt target : String)
    (declaredLength : Int) (body : List Nat) : List Event × Option (List Nat) :=
  let r := ingest declaredLength.toNat body
  let written := r.chunks.flatten
  if (r.totalRead : Int) < declaredLength then
    ([Event.inputWritten written,
      Event.responseSent 400 (incompleteMsg r.totalRead declaredLength)], none)
  else
    let p := convertStage w useAdobe sourceExt target
    (Event.inputWritten written :: p.1, p.2)

/-- Engine selected, LibreOffice availability checked; now the temporary
directory is created, deleted on every exit of the block, and on success the
response is sent after the block exits. -/
def afterEngine (w : World) (req : Req) (target : String) (declaredLength : Int)
    (sourceExt : String) (useAdobe : Bool) : List Event :=
  if !useAdobe && !w.sofficeExists then
    [Event.responseSent 500 "LibreOffice soffice not found in PATH"]
  else
    let p := convertInTmp w useAdobe sourceExt target declaredLength req.body
    let blockEvs := Event.tmpDirCreated :: (p.1 ++ [Event.tmpDirDeleted])
    match p.2 with
    | none => blockEvs
    | some d =>
      blockEvs ++ [Event.responseSent 200 (outputNameOf req target), Event.bodySent d]

def afterLength (cfg : Config) (w : World) (req : Req) (target : String)
    (declaredLength : Int) : List Event :=
  if declaredLength ≤ 0 then
    [Event.responseSent 400 "Empty body"]
  else
    match selectEngine cfg.clientId cfg.clientSecret (sourceExtOf req) target
        req.xConversionEngine with
    | Except.error msg => [Event.responseSent 400 msg]
    | Except.ok useAdobe =>
      afterEngine w req target declaredLength (sourceExtOf req) useAdobe

def afterTarget (cfg : Config) (w : World) (req : Req) (target : String) :
    List Event :=
  match pyInt (req.contentLengthHeader.getD "0") with
  | none => [Event.responseSent 400 "Invalid Content-Length"]
  | some declaredLength => afterLength cfg w req target declaredLength

/-- The whole of `ConvertHandler.do_POST` as an event trace. -/
def doPOST (cfg : Config) (w : World) (req : Req) : List Event :=
  if req.path = "/convert" then
    if targetParam req.queryParams = "" then
      [Event.responseSent 400 "Missing target"]
    else
      afterTarget cfg w req (targetParam req.queryParams)
  else
    [Event.responseSent 404 "Not Found"]

theorem localStageResult_error_status (res : SubprocResult) (oe : Bool)
    (od : List Nat) (p : Nat × String)
    (h : localStageResult res oe od = Except.error p) : p.1 = 500 := by
  unfold localStageResult at h
  split at h
  · cases h; rfl
  · split at h
    · cases h; rfl
    · cases h

theorem convertStage_events (w : World) (ua : Bool) (sourceExt target : String) :
    Event.tmpDirCreated ∉ (convertStage w ua sourceExt target).1 ∧
    Event.tmpDirDeleted ∉ (convertStage w ua sourceExt target).1 ∧
    ∀ s m, Event.responseSent s m ∈ (convertStage w ua sourceExt target).1 →
      s = 500 := by
  unfold convertStage
  cases ua with
  | true =>
    cases hr : w.remote with
    | error e =>
      refine ⟨by simp, by simp, ?_⟩
      intro s m hm
      simp at hm
      exact hm.1
    | ok d => exact ⟨by simp, by simp, by intro s m hm; simp at hm⟩
  | false =>
    simp only [Bool.false_eq_true, if_false]
    cases hres : localStageResult
        (w.run (buildCmd w.sofficePath w.tmpdir
          (w.tmpdir ++ "/input." ++ sourceExt) sourceExt target))
        w.outputExists w.outputData with
    | error p =>
      refine ⟨by simp, by simp, ?_⟩
      intro s m hm
      simp at hm
      rw [hm.1]
      exact localStageResult_error_status _ _ _ _ hres
    | ok d => exact ⟨by simp, by simp, by intro s m hm; simp at hm⟩

theorem convertInTmp_events (w : World) (ua : Bool) (sourceExt target : String)
    (declaredLength : Int) (body : List Nat) :
    Event.tmpDirCreated ∉ (convertInTmp w ua sourceExt target declaredLength body).1 ∧
    Event.tmpDirDeleted ∉ (convertInTmp w ua sourceExt target declaredLength body).1 ∧
    ∀ s m, Event.responseSent s m ∈
        (convertInTmp w ua sourceExt target declaredLength body).1 → s ≠ 200 := by
  simp only [convertInTmp]
  split
  · refine ⟨by simp, by simp, ?_⟩
    intro s m hm
    simp at hm
    rw [hm.1]
    decide
  · obtain ⟨h1, h2, h3⟩ := convertStage_events w ua sourceExt target
    refine ⟨?_, ?_, ?_⟩
    · intro hm
      simp only [List.mem_cons] at hm
      rcases hm with hm | hm
      · cases hm
      · exact h1 hm
    · intro hm
      simp only [List.mem_cons] at hm
      rcases hm with hm | hm
      · cases hm
      · exact h2 hm
    · intro s m hm
      simp only [List.mem_cons] at hm
      rcases hm with hm | hm
      · cases hm
      · rw [h3 s m hm]; decide

theorem selectEngine_requested_adobe_ineligible
    (clientId clientSecret : Option String) (sourceExt target : String)
    (hdr : Option String) (hreq : requestedEngineOf hdr = "adobe")
    (hca : can_use_adobe clientId clientSecret sourceExt target = false) :
    selectEngine clientId clientSecret sourceExt target hdr =
      Except.error "Adobe conversion is not available for this file or credentials." := by
  simp only [selectEngine]
  rw [if_pos hreq, hca]
  rfl

theorem selectEngine_requested_local
    (clientId clientSecret : Option String) (sourceExt target : String)
    (hdr : Option String) (hreq : requestedEngineOf hdr = "libreoffice") :
    selectEngine clientId clientSecret sourceExt target hdr = Except.ok false := by
  simp only [selectEngine]
  rw [hreq, if_neg (by decide), if_pos rfl]

/-- C2: a request that explicitly asks for the remote engine (`adobe`) but is
ineligible (format or credentials) always fails with the engine-selection
error, mapped to HTTP 400 by the coordinator, and never falls back to the
local engine; an explicit `libreoffice` request selects the local engine
unconditionally. -/
theorem C2_requested_engine_no_fallback :
    (∀ (clientId clientSecret : Option String) (sourceExt target : String)
      (hdr : Option String),
      requestedEngineOf hdr = "adobe" →
      can_use_adobe clientId clientSecret sourceExt target = false →
      selectEngine clientId clientSecret sourceExt target hdr =
        Except.error "Adobe conversion is not available for this file or credentials.") ∧
    (∀ (clientId clientSecret : Option String) (sourceExt target : String)
      (hdr : Option String),
      requestedEngineOf hdr = "libreoffice" →
      selectEngine clientId clientSecret sourceExt target hdr = Except.ok false) ∧
    (∀ (cfg : Config) (w : World) (req : Req) (L : Int),
      req.path = "/convert" →
      targetParam req.queryParams ≠ "" →
      pyInt (req.contentLengthHeader.getD "0") = some L →
      0 < L →
      requestedEngineOf req.xConversionEngine = "adobe" →
      can_use_adobe cfg.clientId cfg.clientSecret (sourceExtOf req)
        (targetParam req.queryParams) = false →
      doPOST cfg w req =
        [Event.responseSent 400
          "Adobe conversion is not available for this file or credentials."]) := by
  refine ⟨selectEngine_requested_adobe_ineligible, selectEngine_requested_local, ?_⟩
  intro cfg w req L hpath htgt hLen hL hreq hca
  have hsel := selectEngine_requested_adobe_ineligible cfg.clientId cfg.clientSecret
    (sourceExtOf req) (targetParam req.queryParams) req.xConversionEngine hreq hca
  unfold doPOST
  rw [if_pos hpath, if_neg htgt]
  unfold afterTarget
  simp only [hLen]
  unfold afterLength
  rw [if_neg (by omega)]
  simp only [hsel]

def exCfg : Config := ⟨none, none⟩

def exWorld : World :=
  ⟨"/usr/bin/soffice", true, "/tmpX", fun _ => ⟨0, "", ""⟩, true, [1, 2, 3],
    Except.ok [9]⟩

def reqAdobeNoCreds : Req :=
  ⟨"/convert", [("target", ["docx"])], some "3", none, some "pdf", some "adobe",
    [1, 2, 3]⟩

/-- Witness for C2: with no credentials configured, an explicit `adobe`
request for pdf→docx is rejected with the 400 engine-selection error. -/
theorem C2_requested_engine_no_fallback_witness :
    doPOST exCfg exWorld reqAdobeNoCreds =
      [Event.responseSent 400
        "Adobe conversion is not available for this file or credentials."] :=
  C2_requested_engine_no_fallback.2.2 exCfg exWorld reqAdobeNoCreds 3 rfl
    (by decide) (by decide) (by decide) (by decide) (by decide)

/-- C5 (amended): after the local subprocess exits, a non-zero exit code
fails with the 500 local-conversion-failed error carrying the FIRST 1000
characters of the captured standard error (the code slices with `[:1000]`,
not the last 1000 the specification claims), and a zero exit code with the
expected output file missing fails with the distinct 500
output-artifact-missing error. -/
theorem C5_subprocess_exit_handling (res : SubprocResult) (outputExists : Bool)
    (outputData : List Nat) :
    (res.returncode ≠ 0 →
      localStageResult res outputExists outputData =
        Except.error (500,
          "LibreOffice conversion failed: " ++ strTakeFirst 1000 res.stderr)) ∧
    (res.returncode = 0 → outputExists = false →
      localStageResult res outputExists outputData =
        Except.error (500, "Converted file not found")) := by
  constructor
  · intro h
    unfold localStageResult
    rw [if_pos h]
  · intro h ho
    unfold localStageResult
    rw [if_neg (by omega), ho]
    rfl

def exStderrLong : String := String.mk (List.replicate 1000 'a' ++ ['b'])

set_option maxRecDepth 8000 in
/-- Counterexample to C5 as stated: for a 1001-character stderr the code
reports the first 1000 characters (a thousand `a`s), which differ from the
last 1000 characters (999 `a`s and the final `b`) the claim promises. -/
theorem C5_subprocess_exit_handling_counterexample :
    localStageResult ⟨1, "", exStderrLong⟩ true [] =
      Except.error (500,
        "LibreOffice conversion failed: " ++ strTakeFirst 1000 exStderrLong) ∧
    strTakeFirst 1000 exStderrLong = String.mk (List.replicate 1000 'a') ∧
    strTakeLast 1000 exStderrLong = String.mk (List.replicate 999 'a' ++ ['b']) ∧
    strTakeFirst 1000 exStderrLong ≠ strTakeLast 1000 exStderrLong := by
  refine ⟨?_, by decide, by decide, by decide⟩
  unfold localStageResult
  rw [if_pos (by decide)]

/-- Witness for C5 at concrete inputs: exit code 1 yields the truncated
stderr error, exit code 0 with missing output yields the distinct error. -/
theorem C5_subprocess_exit_handling_witness :
    localStageResult ⟨1, "", "boom"⟩ true [] =
      Except.error (500,
        "LibreOffice conversion failed: " ++ strTakeFirst 1000 "boom") ∧
    localStageResult ⟨0, "", ""⟩ false [] =
      Except.error (500, "Converted file not found") :=
  ⟨(C5_subprocess_exit_handling ⟨1, "", "boom"⟩ true []).1 (by decide),
   (C5_subprocess_exit_handling ⟨0, "", ""⟩ false []).2 rfl rfl⟩

/-- C9 (amended): a POST whose path is not the conversion endpoint is
answered with HTTP 404 `Not Found` (not 400 as the claim states); a
conversion-path request whose query lacks a non-empty `target` is answered
with HTTP 400 `Missing target`; in both cases the trace is that single
response, so no ingestion and no conversion are performed. -/
theorem C9_routing_errors (cfg : Config) (w : World) (req : Req) :
    (req.path ≠ "/convert" →
      doPOST cfg w req = [Event.responseSent 404 "Not Found"]) ∧
    (req.path = "/convert" → targetParam req.queryParams = "" →
      doPOST cfg w req = [Event.responseSent 400 "Missing target"]) := by
  constructor
  · intro h
    unfold doPOST
    rw [if_neg h]
  · intro h1 h2
    unfold doPOST
    rw [if_pos h1, if_pos h2]

def reqBadPath : Req :=
  ⟨"/other", [("target", ["docx"])], some "3", none, none, none, [1, 2, 3]⟩

/-- Counterexample to C9 as stated: an unknown path is answered with 404
`Not Found`, not with an HTTP 400 routing error. -/
theorem C9_routing_errors_counterexample :
    doPOST exCfg exWorld reqBadPath = [Event.responseSent 404 "Not Found"] ∧
    (404 : Nat) ≠ 400 :=
  ⟨by decide, by decide⟩

def reqNoTarget : Req :=
  ⟨"/convert", [], some "3", none, none, none, [1, 2, 3]⟩

/-- Witness for C9: a conversion-path request without a target parameter gets
the 400 `Missing target` response. -/
theorem C9_routing_errors_witness :
    doPOST exCfg exWorld reqNoTarget = [Event.responseSent 400 "Missing target"] :=
  (C9_routing_errors exCfg exWorld reqNoTarget).2 rfl (by decide)

theorem doPOST_reaches_afterEngine (cfg : Config) (w : World) (req : Req)
    (L : Int) (ua : Bool)
    (hpath : req.path = "/convert")
    (htgt : targetParam req.queryParams ≠ "")
    (hLen : pyInt (req.contentLengthHeader.getD "0") = some L)
    (hL : 0 < L)
    (hsel : selectEngine cfg.clientId cfg.clientSecret (sourceExtOf req)
      (targetParam req.queryParams) req.xConversionEngine = Except.ok ua) :
    doPOST cfg w req =
      afterEngine w req (targetParam req.queryParams) L (sourceExtOf req) ua := by
  unfold doPOST
  rw [if_pos hpath, if_neg htgt]
  unfold afterTarget
  simp only [hLen]
  unfold afterLength
  rw [if_neg (by omega)]
  simp only [hsel]

/-- C3: with routing, target, declared length `L > 0` and engine selection in
place, a stream delivering exactly `L` bytes is ingested completely (the
input file holds the whole body, read in chunks of at most 1 MiB) and the
request is never answered with an HTTP 400 afterwards; a stream delivering
fewer than `L` bytes makes the request fail with the HTTP 400
incomplete-body error carrying the accurate bytes-read/declared counts, and
no conversion (subprocess or remote workflow) is attempted. -/
theorem C3_body_ingestion (cfg : Config) (w : World) (req : Req) (L : Int)
    (ua : Bool)
    (hpath : req.path = "/convert")
    (htgt : targetParam req.queryParams ≠ "")
    (hLen : pyInt (req.contentLengthHeader.getD "0") = some L)
    (hL : 0 < L)
    (hsel : selectEngine cfg.clientId cfg.clientSecret (sourceExtOf req)
      (targetParam req.queryParams) req.xConversionEngine = Except.ok ua)
    (hso : ua = true ∨ w.sofficeExists = true) :
    ((req.body.length : Int) = L →
      ∃ rest, doPOST cfg w req =
        Event.tmpDirCreated :: Event.inputWritten req.body :: rest ∧
        ∀ m, Event.responseSent 400 m ∉ rest) ∧
    ((req.body.length : Int) < L →
      doPOST cfg w req =
        [Event.tmpDirCreated, Event.inputWritten req.body,
         Event.responseSent 400 (incompleteMsg req.body.length L),
         Event.tmpDirDeleted]) ∧
    (∀ c ∈ (ingest L.toNat req.body).chunks, c.length ≤ chunkLimit) := by
  have hdo := doPOST_reaches_afterEngine cfg w req L ua hpath htgt hLen hL hsel
  have hcond : (!ua && !w.sofficeExists) = false := by
    rcases hso with h | h <;> simp [h]
  refine ⟨?_, ?_, ?_⟩
  · intro heq
    have htr : (ingest L.toNat req.body).totalRead = L.toNat := by
      rw [ingest_totalRead]; omega
    have hwr : (ingest L.toNat req.body).chunks.flatten = req.body := by
      rw [ingest_flatten]; exact List.take_of_length_le (by omega)
    have hnotlt : ¬ ((ingest L.toNat req.body).totalRead : Int) < L := by
      rw [htr]; omega
    have hct : convertInTmp w ua (sourceExtOf req) (targetParam req.queryParams)
        L req.body =
        (Event.inputWritten req.body ::
          (convertStage w ua (sourceExtOf req) (targetParam req.queryParams)).1,
         (convertStage w ua (sourceExtOf req) (targetParam req.queryParams)).2) := by
      simp only [convertInTmp]
      rw [if_neg hnotlt, hwr]
    obtain ⟨hc1, hc2, hc3⟩ :=
      convertStage_events w ua (sourceExtOf req) (targetParam req.queryParams)
    rw [hdo]
    simp only [afterEngine, hcond, Bool.false_eq_true, if_false, hct]
    cases hp : (convertStage w ua (sourceExtOf req) (targetParam req.queryParams)).2 with
    | none =>
      refine ⟨(convertStage w ua (sourceExtOf req) (targetParam req.queryParams)).1
          ++ [Event.tmpDirDeleted], by simp, ?_⟩
      intro m hm
      rcases List.mem_append.mp hm with hm | hm
      · exact absurd (hc3 400 m hm) (by decide)
      · simp at hm
    | some d =>
      refine ⟨(convertStage w ua (sourceExtOf req) (targetParam req.queryParams)).1
          ++ Event.tmpDirDeleted ::
            [Event.responseSent 200
              (outputNameOf req (targetParam req.queryParams)),
             Event.bodySent d], by simp, ?_⟩
      intro m hm
      rcases List.mem_append.mp hm with hm | hm
      · exact absurd (hc3 400 m hm) (by decide)
      · simp at hm
  · intro hlt
    have htr : (ingest L.toNat req.body).totalRead = req.body.length := by
      rw [ingest_totalRead]; omega
    have hwr : (ingest L.toNat req.body).chunks.flatten = req.body := by
      rw [ingest_flatten]; exact List.take_of_length_le (by omega)
    have hct : convertInTmp w ua (sourceExtOf req) (targetParam req.queryParams)
        L req.body =
        ([Event.inputWritten req.body,
          Event.responseSent 400 (incompleteMsg req.body.length L)], none) := by
      simp only [convertInTmp]
      rw [htr, hwr, if_pos hlt]
    rw [hdo]
    simp only [afterEngine, hcond, Bool.false_eq_true, if_false, hct]
    rfl
  · intro c hc
    exact ingestChunks_le_chunkLimit req.body L.toNat c hc

def reqTruncated : Req :=
  ⟨"/convert", [("target", ["docx"])], some "5", none, none, some "libreoffice",
    [7, 8]⟩

/-- Witness for C3: a declared length of 5 with only two delivered bytes
yields exactly the incomplete-body 400 with the accurate counts, inside the
created-then-deleted temporary directory, with no conversion event. -/
theorem C3_body_ingestion_witness :
    doPOST exCfg exWorld reqTruncated =
      [Event.tmpDirCreated, Event.inputWritten [7, 8],
       Event.responseSent 400 (incompleteMsg 2 5), Event.tmpDirDeleted] :=
  (C3_body_ingestion exCfg exWorld reqTruncated 5 false rfl (by decide)
    (by decide) (by decide) rfl (Or.inr rfl)).2.1 (by decide)

/-- Every trace of `do_POST` is either a single non-200 response (an early
error before the temporary directory exists), or a bracketed trace that
creates the temporary directory, runs the block (which never creates,
deletes, or answers 200 inside), deletes the directory, and afterwards at
most sends the 200 response and the body. -/
theorem doPOST_shape (cfg : Config) (w : World) (req : Req) :
    (∃ s m, doPOST cfg w req = [Event.responseSent s m] ∧ s ≠ 200) ∨
    (∃ evs tail, doPOST cfg w req =
        Event.tmpDirCreated :: evs ++ Event.tmpDirDeleted :: tail ∧
      Event.tmpDirCreated ∉ evs ∧ Event.tmpDirDeleted ∉ evs ∧
      (∀ s m, Event.responseSent s m ∈ evs → s ≠ 200) ∧
      (tail = [] ∨ ∃ nm d, tail = [Event.responseSent 200 nm, Event.bodySent d])) := by
  by_cases hpath : req.path = "/convert"
  case neg =>
    exact Or.inl ⟨404, "Not Found", by unfold doPOST; rw [if_neg hpath], by decide⟩
  case pos =>
  by_cases htgt : targetParam req.queryParams = ""
  · exact Or.inl ⟨400, "Missing target",
      by unfold doPOST; rw [if_pos hpath, if_pos htgt], by decide⟩
  · have hdo : doPOST cfg w req = afterTarget cfg w req (targetParam req.queryParams) := by
      unfold doPOST; rw [if_pos hpath, if_neg htgt]
    rw [hdo]
    cases hLen : pyInt (req.contentLengthHeader.getD "0") with
    | none =>
      exact Or.inl ⟨400, "Invalid Content-Length",
        by unfold afterTarget; rw [hLen], by decide⟩
    | some L =>
      have hat : afterTarget cfg w req (targetParam req.queryParams) =
          afterLength cfg w req (targetParam req.queryParams) L := by
        unfold afterTarget; rw [hLen]
      rw [hat]
      by_cases hL : L ≤ 0
      · exact Or.inl ⟨400, "Empty body",
          by unfold afterLength; rw [if_pos hL], by decide⟩
      · cases hsel : selectEngine cfg.clientId cfg.clientSecret (sourceExtOf req)
            (targetParam req.queryParams) req.xConversionEngine with
        | error msg =>
          exact Or.inl ⟨400, msg,
            by unfold afterLength; rw [if_neg hL]; simp only [hsel], by decide⟩
        | ok ua =>
          have hal : afterLength cfg w req (targetParam req.queryParams) L =
              afterEngine w req (targetParam req.queryParams) L (sourceExtOf req) ua := by
            unfold afterLength; rw [if_neg hL]; simp only [hsel]
          rw [hal]
          by_cases hbe : (!ua && !w.sofficeExists) = true
          · exact Or.inl ⟨500, "LibreOffice soffice not found in PATH",
              by simp only [afterEngine]; rw [if_pos hbe], by decide⟩
          · right
            obtain ⟨h1, h2, h3⟩ := convertInTmp_events w ua (sourceExtOf req)
              (targetParam req.queryParams) L req.body
            have hae : afterEngine w req (targetParam req.queryParams) L
                (sourceExtOf req) ua =
                (match (convertInTmp w ua (sourceExtOf req)
                    (targetParam req.queryParams) L req.body).2 with
                 | none => Event.tmpDirCreated ::
                     ((convertInTmp w ua (sourceExtOf req)
                       (targetParam req.queryParams) L req.body).1 ++
                      [Event.tmpDirDeleted])
                 | some d => (Event.tmpDirCreated ::
                     ((convertInTmp w ua (sourceExtOf req)
                       (targetParam req.queryParams) L req.body).1 ++
                      [Event.tmpDirDeleted])) ++
                     [Event.responseSent 200
                       (outputNameOf req (targetParam req.queryParams)),
                      Event.bodySent d]) := by
              simp only [afterEngine]
              rw [if_neg hbe]
            rw [hae]
            cases hp : (convertInTmp w ua (sourceExtOf req)
                (targetParam req.queryParams) L req.body).2 with
            | none =>
              exact ⟨(convertInTmp w ua (sourceExtOf req)
                  (targetParam req.queryParams) L req.body).1, [],
                by simp, h1, h2, h3, Or.inl rfl⟩
            | some d =>
              exact ⟨(convertInTmp w ua (sourceExtOf req)
                  (targetParam req.queryParams) L req.body).1,
                [Event.responseSent 200
                  (outputNameOf req (targetParam req.queryParams)),
                 Event.bodySent d],
                by simp, h1, h2, h3,
                Or.inr ⟨outputNameOf req (targetParam req.queryParams), d, rfl⟩⟩

/-- C8 (amended): the temporary working directory is created at most once
per request, and whenever it is created it is deleted again before the
handler returns, so no files remain afterwards; on the success path the
deletion happens before the 200 response is sent — but on failure paths
inside the conversion block the error response is sent before the deletion
(see the counterexample), not after it as the claim states. -/
theorem C8_tmpdir_lifecycle (cfg : Config) (w : World) (req : Req) :
    (Event.tmpDirCreated ∈ doPOST cfg w req ↔
      Event.tmpDirDeleted ∈ doPOST cfg w req) ∧
    (∀ nm, Event.responseSent 200 nm ∈ doPOST cfg w req →
      ∃ evs rest, doPOST cfg w req =
        Event.tmpDirCreated :: evs ++ Event.tmpDirDeleted :: rest ∧
        Event.responseSent 200 nm ∈ rest) := by
  rcases doPOST_shape cfg w req with ⟨s, m, heq, hs⟩ | ⟨evs, tail, heq, h1, h2, h3, _⟩
  · rw [heq]
    constructor
    · simp
    · intro nm hm
      simp only [List.mem_singleton] at hm
      cases hm
      exact absurd rfl hs
  · rw [heq]
    constructor
    · simp
    · intro nm hm
      refine ⟨evs, tail, rfl, ?_⟩
      rcases List.mem_cons.mp hm with hm | hm
      · cases hm
      · rcases List.mem_append.mp hm with hm | hm
        · exact absurd rfl (h3 200 nm hm)
        · rcases List.mem_cons.mp hm with hm | hm
          · cases hm
          · exact hm

def reqIncomplete : Req :=
  ⟨"/convert", [("target", ["docx"])], some "5", none, none, some "libreoffice",
    [7, 8]⟩

/-- Position of the first event satisfying the predicate. -/
def firstIdxWhere (p : Event → Bool) : List Event → Option Nat
  | [] => none
  | e :: es => if p e then some 0 else (firstIdxWhere p es).map (· + 1)

def isResponseEvent : Event → Bool
  | Event.responseSent _ _ => true
  | _ => false

def isDeleteEvent : Event → Bool
  | Event.tmpDirDeleted => true
  | _ => false

/-- Counterexample to C8 as stated: for a truncated-body request the error
response (index 2 of the trace) is sent BEFORE the temporary directory is
deleted (index 3) — deletion does not precede the HTTP response on this
exit path. -/
theorem C8_tmpdir_lifecycle_counterexample :
    doPOST exCfg exWorld reqIncomplete =
      [Event.tmpDirCreated, Event.inputWritten [7, 8],
       Event.responseSent 400 "Incomplete request body: 2/5 bytes",
       Event.tmpDirDeleted] ∧
    firstIdxWhere isResponseEvent (doPOST exCfg exWorld reqIncomplete) = some 2 ∧
    firstIdxWhere isDeleteEvent (doPOST exCfg exWorld reqIncomplete) = some 3 ∧
    ¬ (3 : Nat) < 2 :=
  ⟨by decide, by decide, by decide, by decide⟩

def reqOK : Req :=
  ⟨"/convert", [("target", ["docx"])], some "3", none, none, some "libreoffice",
    [7, 8, 9]⟩

/-- Witness for C8: on a successful local conversion the 200 response is
sent only after the temporary directory was deleted. -/
theorem C8_tmpdir_lifecycle_witness :
    ∃ evs rest, doPOST exCfg exWorld reqOK =
      Event.tmpDirCreated :: evs ++ Event.tmpDirDeleted :: rest ∧
      Event.responseSent 200 "document.docx" ∈ rest :=
  (C8_tmpdir_lifecycle exCfg exWorld reqOK).2 "document.docx" (by decide)

end ConvertServer
